import Mathlib

/-!
Verification of the custom-rss extraction-and-normalization pipeline.

The definitions below are a shallow embedding of the Rust sources
`src/isabel.rs`, `src/verde.rs`, `src/rss_utils.rs`:

* strings stay `String`; Rust `u32`/`i32` parsing is modelled over `Nat`/`Int`
  with the exact range checks and error messages of `str::parse`;
* `anyhow::Result<T>` becomes `Except String T` (the error is the message);
* the scraper DOM is a `Node` tree and the CSS selectors used by the sources
  are modelled structurally (tag, classes, attribute equality, `:not(.c)`,
  descendant combinator);
* `chrono` calendar arithmetic (`NaiveDate::from_ymd_opt`, weekday, RFC 2822
  rendering) is modelled over `Int`; the `chrono_tz::Europe::Madrid` timezone
  is modelled as the fixed-timespan set compiled from the tz database, and
  `and_local_timezone` resolves a local timestamp against those timespans
  exactly as `chrono-tz` does (zero / one / two covering timespans give
  `None` / `Single` / `Ambiguous`).

HTTP fetching is opaque: handlers take the fetch outcome (`Except`) as input.
-/

/-! ## Whitespace tokenization (model of Rust `str::split_whitespace`) -/

/-- Accumulating splitter over the character list: split on whitespace and
drop empty fragments, exactly as `split_whitespace` does.  (Whitespace is
modelled as the ASCII whitespace characters used by the inputs at hand.) -/
def splitWsAux : List Char → List Char → List (List Char)
  | [], acc => if acc.isEmpty then [] else [acc.reverse]
  | c :: cs, acc =>
    if c.isWhitespace then
      if acc.isEmpty then splitWsAux cs [] else acc.reverse :: splitWsAux cs []
    else
      splitWsAux cs (c :: acc)

/-- Model of Rust `str::split_whitespace().collect::<Vec<&str>>()`. -/
def split_whitespace (s : String) : List String :=
  (splitWsAux s.data []).map (fun l => String.mk l)

/-! ## Integer parsing (model of Rust `str::parse::<u32>` / `str::parse::<i32>`) -/

/-- Decimal digits to a number (most significant first); caller ensures all
characters are ASCII digits. -/
def digitsToNat : List Char → Nat
  | [] => 0
  | c :: cs => (digitsToNat cs) + c.toNat.sub 48 * (10 ^ cs.length)

/-- Model of `str::parse::<u32>`: optional leading `+`, one or more ASCII
digits, value below `2^32`; error messages are the `ParseIntError` displays. -/
def parseU32 (s : String) : Except String Nat :=
  match s.data with
  | [] => Except.error ("cannot parse integer from empty string")
  | c :: cs =>
    let ds := if c = '+' then cs else c :: cs
    if ds.isEmpty then Except.error ("invalid digit found in string")
    else if ds.all Char.isDigit then
      if digitsToNat ds < 4294967296 then Except.ok (digitsToNat ds)
      else Except.error ("number too large to fit in target type")
    else Except.error ("invalid digit found in string")

/-- Model of `str::parse::<i32>`: optional sign, digits, `i32` range check. -/
def parseI32 (s : String) : Except String Int :=
  match s.data with
  | [] => Except.error ("cannot parse integer from empty string")
  | c :: cs =>
    let neg := c = '-'
    let ds := if c = '+' ∨ c = '-' then cs else c :: cs
    if ds.isEmpty then Except.error ("invalid digit found in string")
    else if ds.all Char.isDigit then
      if neg then
        if digitsToNat ds ≤ 2147483648 then Except.ok (-(digitsToNat ds : Int))
        else Except.error ("number too small to fit in target type")
      else
        if digitsToNat ds ≤ 2147483647 then Except.ok ((digitsToNat ds : Int))
        else Except.error ("number too large to fit in target type")
    else Except.error ("invalid digit found in string")

/-! ## Calendar model (chrono `NaiveDate`) -/

/-- Proleptic-Gregorian leap year. -/
def isLeapYear (y : Int) : Bool := (y % 4 == 0 && y % 100 != 0) || y % 400 == 0

/-- Length of a month, `m ∈ [1,12]`. -/
def daysInMonth (y : Int) (m : Nat) : Nat :=
  if m = 2 then (if isLeapYear y then 29 else 28)
  else if m = 4 ∨ m = 6 ∨ m = 9 ∨ m = 11 then 30
  else 31

/-- A `chrono::NaiveDate` value: a valid proleptic-Gregorian calendar date. -/
structure YMD where
  year : Int
  month : Nat
  day : Nat
deriving DecidableEq, Repr

/-- chrono's representable year range: `i32::MIN >> 13` to `i32::MAX >> 13`. -/
def MIN_YEAR : Int := -262144
/-- See `MIN_YEAR`. -/
def MAX_YEAR : Int := 262143

/-- Model of `chrono::NaiveDate::from_ymd_opt`. -/
def from_ymd_opt (y : Int) (m d : Nat) : Option YMD :=
  if 1 ≤ m ∧ m ≤ 12 ∧ 1 ≤ d ∧ d ≤ daysInMonth y m ∧ MIN_YEAR ≤ y ∧ y ≤ MAX_YEAR then
    Option.some ⟨y, m, d⟩
  else Option.none

/-- Days since 1970-01-01 of a proleptic-Gregorian date (Howard Hinnant's
`days_from_civil`, with floor division made explicit). -/
def daysFromCivil (y : Int) (m d : Nat) : Int :=
  let yAdj : Int := if m ≤ 2 then y - 1 else y
  let era : Int := Int.fdiv yAdj 400
  let yoe : Int := yAdj - era * 400
  let mp : Int := Int.emod ((m : Int) + 9) 12
  let doy : Int := Int.fdiv (153 * mp + 2) 5 + (d : Int) - 1
  let doe : Int := yoe * 365 + Int.fdiv yoe 4 - Int.fdiv yoe 100 + doy
  era * 146097 + doe - 719468

/-! ## The Europe/Madrid timezone as a fixed-timespan set

`chrono_tz::Europe::Madrid` is the tz-database zone compiled into a list of
fixed timespans: an initial offset (LMT, −884 s) and a sorted list of
transitions `(utc_instant, new_offset_seconds)`.  The transition instants
below model the tz database `Europe/Madrid` data: the pre-1979 Spanish
transitions (all at local night hours) and the EU daylight-saving rule from
1979 through the end of the compiled table, after which the final standard
offset (CET, +3600) extends forever. -/

/-- UTC timestamp (seconds since epoch) of a calendar date and time of day. -/
def utcAt (y : Int) (m d : Nat) (hh mi ss : Nat) : Int :=
  daysFromCivil y m d * 86400 + (hh : Int) * 3600 + (mi : Int) * 60 + (ss : Int)

/-- Day of month of the last Sunday of month `m` of year `y`
(weekday is computed from the epoch day; 1970-01-01 was a Thursday). -/
def lastSundayDom (y : Int) (m : Nat) : Nat :=
  let L := daysInMonth y m
  let wd := Int.emod (daysFromCivil y m L + 4) 7
  L - wd.toNat

/-- Day of month of the first Sunday of month `m` of year `y`. -/
def firstSundayDom (y : Int) (m : Nat) : Nat :=
  let wd := Int.emod (daysFromCivil y m 1 + 4) 7
  1 + (Int.emod (7 - wd) 7).toNat

/-- Spring EU transition (to UTC+2) of a given year, at 01:00 UTC:
first Sunday of April through 1980, last Sunday of March afterwards. -/
def euSpring (y : Int) : Int :=
  if y ≤ 1980 then utcAt y 4 (firstSundayDom y 4) 1 0 0
  else utcAt y 3 (lastSundayDom y 3) 1 0 0

/-- Autumn EU transition (back to UTC+1) of a given year, at 01:00 UTC:
last Sunday of September through 1995, last Sunday of October afterwards. -/
def euFall (y : Int) : Int :=
  if y ≤ 1995 then utcAt y 9 (lastSundayDom y 9) 1 0 0
  else utcAt y 10 (lastSundayDom y 10) 1 0 0

/-- The EU-rule transitions for Madrid, 1979 through 2037. -/
def euSpans : List (Int × Int) :=
  (List.range 59).flatMap (fun i =>
    let y : Int := 1979 + (i : Int)
    [(euSpring y, 7200), (euFall y, 3600)])

/-- Pre-EU transitions of Europe/Madrid (tz database): the 1901 LMT→WET
shift at local midnight, the 1918–1940 WET/WEST summer times (changes at
23:00 or 24:00 local), the permanent move to CET in 1940, the 1940s and 1949
CET/CEST summers, and the 1974–1978 CET/CEST summers. -/
def madridHistoric : List (Int × Int) := [
  (utcAt 1901 1 1 0 0 0, 0),
  (utcAt 1918 4 15 23 0 0, 3600), (utcAt 1918 10 7 0 0 0, 0),
  (utcAt 1919 4 6 23 0 0, 3600), (utcAt 1919 10 7 0 0 0, 0),
  (utcAt 1924 4 16 23 0 0, 3600), (utcAt 1924 10 5 0 0 0, 0),
  (utcAt 1926 4 17 23 0 0, 3600), (utcAt 1926 10 3 0 0 0, 0),
  (utcAt 1927 4 9 23 0 0, 3600), (utcAt 1927 10 2 0 0 0, 0),
  (utcAt 1928 4 15 23 0 0, 3600), (utcAt 1928 10 7 0 0 0, 0),
  (utcAt 1929 4 20 23 0 0, 3600), (utcAt 1929 10 6 0 0 0, 0),
  (utcAt 1937 6 16 23 0 0, 3600), (utcAt 1937 10 3 0 0 0, 0),
  (utcAt 1938 4 2 23 0 0, 3600), (utcAt 1938 10 2 0 0 0, 0),
  (utcAt 1939 4 15 23 0 0, 3600), (utcAt 1939 10 8 0 0 0, 0),
  (utcAt 1940 3 16 23 0 0, 3600),
  (utcAt 1942 5 2 22 0 0, 7200), (utcAt 1942 9 1 23 0 0, 3600),
  (utcAt 1943 4 17 22 0 0, 7200), (utcAt 1943 10 3 23 0 0, 3600),
  (utcAt 1944 4 15 22 0 0, 7200), (utcAt 1944 10 10 23 0 0, 3600),
  (utcAt 1945 4 14 22 0 0, 7200), (utcAt 1945 9 30 23 0 0, 3600),
  (utcAt 1946 4 13 22 0 0, 7200), (utcAt 1946 9 29 23 0 0, 3600),
  (utcAt 1949 4 30 22 0 0, 7200), (utcAt 1949 10 1 23 0 0, 3600),
  (utcAt 1974 4 13 22 0 0, 7200), (utcAt 1974 10 6 0 0 0, 3600),
  (utcAt 1975 4 12 22 0 0, 7200), (utcAt 1975 10 5 0 0 0, 3600),
  (utcAt 1976 3 27 22 0 0, 7200), (utcAt 1976 9 26 0 0 0, 3600),
  (utcAt 1977 4 2 22 0 0, 7200), (utcAt 1977 9 25 0 0 0, 3600),
  (utcAt 1978 4 2 22 0 0, 7200), (utcAt 1978 10 1 0 0 0, 3600)]

/-- Offset before the first transition: Madrid local mean time, −0:14:44. -/
def madridLMT : Int := -884

/-- The full transition table of the modelled `Europe/Madrid` zone. -/
def madridSpans : List (Int × Int) := madridHistoric ++ euSpans

/-- chrono's `LocalResult` for timezone resolution. -/
inductive LocalResult where
  | single (offset : Int)
  | ambiguous (o1 o2 : Int)
  | noResult
deriving DecidableEq, Repr

/-- Is the current timespan's local start (if bounded) at or before `L`? -/
def loOkB : Option Int → Int → Bool
  | Option.none, _ => true
  | Option.some s, L => decide (s ≤ L)

/-- Offsets of the timespans whose local interval covers local timestamp `L`:
span `i` covers `[t_i + o_i, t_(i+1) + o_i)` in local time (the first span is
unbounded below, the last unbounded above).  This is exactly how `chrono-tz`
resolves a local datetime against its fixed-timespan set. -/
def coveringOffsets : Option Int → Int → List (Int × Int) → Int → List Int
  | lo, o, [], L => if loOkB lo L then [o] else []
  | lo, o, (t, o2) :: tl, L =>
    (if loOkB lo L && decide (L < t + o) then [o] else []) ++
      coveringOffsets (Option.some (t + o2)) o2 tl L

/-- Model of `NaiveDateTime::and_local_timezone(Madrid)` on a local
timestamp `L` (seconds since epoch of the local wall-clock datetime). -/
def resolveLocalMadrid (L : Int) : LocalResult :=
  match coveringOffsets Option.none madridLMT madridSpans L with
  | [o] => LocalResult.single o
  | [] => LocalResult.noResult
  | o1 :: o2 :: _ => LocalResult.ambiguous o1 o2

/-! ## RFC 2822 rendering (model of chrono `DateTime::to_rfc2822`) -/

/-- Two-digit zero-padded decimal. -/
def pad2 (n : Nat) : String := if n < 10 then "0" ++ toString n else toString n

/-- Zero-padded (width ≥ 4) signed year. -/
def pad4Int (y : Int) : String :=
  let a := y.natAbs
  let s := if a < 10 then "000" ++ toString a
    else if a < 100 then "00" ++ toString a
    else if a < 1000 then "0" ++ toString a
    else toString a
  (if y < 0 then "-" else "") ++ s

/-- `["Mon", …]` indexed by days-from-Monday. -/
def shortWeekdayName (i : Nat) : String :=
  match i with
  | 0 => "Mon" | 1 => "Tue" | 2 => "Wed" | 3 => "Thu"
  | 4 => "Fri" | 5 => "Sat" | _ => "Sun"

/-- `["Jan", …]` indexed by month number 1–12. -/
def shortMonthName (m : Nat) : String :=
  match m with
  | 1 => "Jan" | 2 => "Feb" | 3 => "Mar" | 4 => "Apr" | 5 => "May" | 6 => "Jun"
  | 7 => "Jul" | 8 => "Aug" | 9 => "Sep" | 10 => "Oct" | 11 => "Nov" | _ => "Dec"

/-- `+hhmm` / `-hhmm` timezone offset, minute precision. -/
def offsetString (off : Int) : String :=
  let a := off.natAbs
  (if off < 0 then "-" else "+") ++ pad2 (a / 3600) ++ pad2 (a % 3600 / 60)

/-- Model of `DateTime<Tz>::to_rfc2822` for a local date at time
`hh:mi:ss` with UTC offset `off` (e.g. `"Wed, 03 Jan 2024 12:00:00 +0100"`),
on the executions where it returns.  chrono's `write_rfc2822` refuses years
outside `0..=9999` and `to_rfc2822` unwraps that error, i.e. panics; the
panicking executions are modelled by `parse_date_outcome` and
`reportajes_date_outcome`, not here. -/
def rfc2822String (d : YMD) (hh mi ss : Nat) (off : Int) : String :=
  shortWeekdayName (Int.emod (daysFromCivil d.year d.month d.day + 3) 7).toNat
    ++ ", " ++ pad2 d.day ++ " " ++ shortMonthName d.month ++ " "
    ++ pad4Int d.year ++ " " ++ pad2 hh ++ ":" ++ pad2 mi ++ ":" ++ pad2 ss
    ++ " " ++ offsetString off

/-- Local timestamp of noon (the fixed nominal time 12:00:00) on a date. -/
def noonTimestamp (d : YMD) : Int :=
  daysFromCivil d.year d.month d.day * 86400 + 43200

/-- Model of the shared tail of both date parsers:
`NaiveDateTime::new(date, 12:00:00).and_local_timezone(Madrid)` followed by
`to_rfc2822` on the `Single` branch and the `Invalid timezone` error
otherwise — again on the executions where `to_rfc2822` returns.  For a year
outside `0..=9999` the real call panics instead of producing a value; see
`parse_date_outcome` / `reportajes_date_outcome`. -/
def localizeNoonRfc2822 (d : YMD) : Except String String :=
  match resolveLocalMadrid (noonTimestamp d) with
  | LocalResult.single o => Except.ok (rfc2822String d 12 0 0 o)
  | _ => Except.error ("Invalid timezone")

/-! ## The two token-dialect date parsers -/

/-- The 12 full lowercase Spanish month names of `isabel::parse_date`. -/
def spanishMonths : List String :=
  ["enero", "febrero", "marzo", "abril", "mayo", "junio", "julio",
   "agosto", "septiembre", "octubre", "noviembre", "diciembre"]

/-- The month-name match of `isabel::parse_date` (the fixed 12-entry table;
the default arm names the invalid token). -/
def monthFromName (s : String) : Except String Nat :=
  match s with
  | "enero" => Except.ok 1
  | "febrero" => Except.ok 2
  | "marzo" => Except.ok 3
  | "abril" => Except.ok 4
  | "mayo" => Except.ok 5
  | "junio" => Except.ok 6
  | "julio" => Except.ok 7
  | "agosto" => Except.ok 8
  | "septiembre" => Except.ok 9
  | "octubre" => Except.ok 10
  | "noviembre" => Except.ok 11
  | "diciembre" => Except.ok 12
  | invalid => Except.error ("Not a valid month: " ++ invalid)

/-- The 12 period-suffixed month abbreviations of `verde::reportajes_date`. -/
def spanishMonthAbbrevs : List String :=
  ["Ene.", "Feb.", "Mar.", "Abr.", "Mayo.", "Jun.", "Jul.",
   "Ago.", "Sep.", "Oct.", "Nov.", "Dic."]

/-- The abbreviated-month match of `verde::reportajes_date`. -/
def monthFromAbbrev (s : String) : Except String Nat :=
  match s with
  | "Ene." => Except.ok 1
  | "Feb." => Except.ok 2
  | "Mar." => Except.ok 3
  | "Abr." => Except.ok 4
  | "Mayo." => Except.ok 5
  | "Jun." => Except.ok 6
  | "Jul." => Except.ok 7
  | "Ago." => Except.ok 8
  | "Sep." => Except.ok 9
  | "Oct." => Except.ok 10
  | "Nov." => Except.ok 11
  | "Dic." => Except.ok 12
  | invalid => Except.error ("Not a valid month: " ++ invalid)

/-- Model of `Option::ok_or_else` under `anyhow`. -/
def okOr {α : Type} (o : Option α) (msg : String) : Except String α :=
  match o with
  | Option.some a => Except.ok a
  | Option.none => Except.error msg

/-- Model of the `NaiveDate::from_ymd_opt` + error step shared by both
parsers (message text as in the source). -/
def fromYmdStep (year : Int) (month day : Nat) : Except String YMD :=
  okOr (from_ymd_opt year month day)
    ("Unable to form date with values year = " ++ toString year ++
     ", month = " ++ toString month ++ " and day = " ++ toString day)

/-- Model of `isabel::parse_date`: day from whitespace token 1, year from
token 5, month name from token 3, then date formation and Madrid-noon
localization, rendered as RFC 2822. -/
def parse_date (date : String) : Except String String := do
  let s := split_whitespace date
  let dayTok ← okOr (s[1]?) ("Unable to extract day from input string")
  let day ← parseU32 dayTok
  let yearTok ← okOr (s[5]?) ("Unable to extract year from input string")
  let year ← parseI32 yearTok
  let monthTok ← okOr (s[3]?) ("Unable to extract month from input string")
  let month ← monthFromName monthTok
  let date ← fromYmdStep year month day
  localizeNoonRfc2822 date

/-- Model of `verde::reportajes_date`: day from token 0, year from token 2,
abbreviated month from token 1, then the same tail as `parse_date`. -/
def reportajes_date (input : String) : Except String String := do
  let s := split_whitespace input
  let dayTok ← okOr (s[0]?) ("Unable to extract day from input string")
  let day ← parseU32 dayTok
  let yearTok ← okOr (s[2]?) ("Unable to extract year from input string")
  let year ← parseI32 yearTok
  let monthTok ← okOr (s[1]?) ("Unable to extract month from input string")
  let month ← monthFromAbbrev monthTok
  let date ← fromYmdStep year month day
  localizeNoonRfc2822 date

/-- The date-producing prefix of `isabel::parse_date`: the token reads,
number parses, month lookup and date formation, before the Madrid-noon
localization (`parse_date` is this prefix followed by
`localizeNoonRfc2822`; see `parse_date_decomp`). -/
def parse_date_ymd (date : String) : Except String YMD := do
  let s := split_whitespace date
  let dayTok ← okOr (s[1]?) ("Unable to extract day from input string")
  let day ← parseU32 dayTok
  let yearTok ← okOr (s[5]?) ("Unable to extract year from input string")
  let year ← parseI32 yearTok
  let monthTok ← okOr (s[3]?) ("Unable to extract month from input string")
  let month ← monthFromName monthTok
  fromYmdStep year month day

/-- The date-producing prefix of `verde::reportajes_date`; see
`parse_date_ymd`. -/
def reportajes_date_ymd (input : String) : Except String YMD := do
  let s := split_whitespace input
  let dayTok ← okOr (s[0]?) ("Unable to extract day from input string")
  let day ← parseU32 dayTok
  let yearTok ← okOr (s[2]?) ("Unable to extract year from input string")
  let year ← parseI32 yearTok
  let monthTok ← okOr (s[1]?) ("Unable to extract month from input string")
  let month ← monthFromAbbrev monthTok
  fromYmdStep year month day

/-- Panic-aware model of `isabel::parse_date`: `Option.some r` is an
execution that returns the `Result` `r`; `Option.none` is an execution that
panics — which happens exactly when a successfully formed date reaches
`DateTime::to_rfc2822` with a year outside `0..=9999` (chrono's
`write_rfc2822` rejects such years and `to_rfc2822` unwraps the error). -/
def parse_date_outcome (s : String) : Option (Except String String) :=
  match parse_date_ymd s with
  | Except.error m => Option.some (Except.error m)
  | Except.ok d =>
    if 0 ≤ d.year ∧ d.year ≤ 9999 then Option.some (localizeNoonRfc2822 d)
    else Option.none

/-- Panic-aware model of `verde::reportajes_date`; see
`parse_date_outcome`. -/
def reportajes_date_outcome (s : String) : Option (Except String String) :=
  match reportajes_date_ymd s with
  | Except.error m => Option.some (Except.error m)
  | Except.ok d =>
    if 0 ≤ d.year ∧ d.year ≤ 9999 then Option.some (localizeNoonRfc2822 d)
    else Option.none

/-- Splitter on `-` for `parseIsoDate`, keeping empty fragments. -/
def splitDashAux : List Char → List Char → List (List Char)
  | [], acc => [acc.reverse]
  | c :: cs, acc =>
    if c = '-' then acc.reverse :: splitDashAux cs [] else splitDashAux cs (c :: acc)

/-- See `parseIsoDate`: split on `-`, keeping empty fragments. -/
def splitDash (s : String) : List String :=
  (splitDashAux s.data []).map (fun l => String.mk l)

/-- Model of `text.parse::<NaiveDate>()` (dialect B1, the ISO-style date of
`verde::parse_blog`): `year-month-day`.  The error messages of chrono's
`ParseError` are collapsed to its invalid-input display; the claims under
proof do not depend on its fine structure. -/
def parseIsoDate (s : String) : Except String YMD :=
  match splitDash s with
  | [ys, ms, ds] =>
    (match parseI32 ys, parseU32 ms, parseU32 ds with
     | Except.ok y, Except.ok m, Except.ok d =>
       okOr (from_ymd_opt y m d) ("input is out of range")
     | _, _, _ => Except.error ("input contains invalid characters"))
  | _ => Except.error ("input contains invalid characters")

/-! ## DOM model (scraper `Html` / `ElementRef`) -/

/-- A parsed DOM node: a text node or an element with a tag name, a class
set, an attribute list and children in document order. -/
inductive Node where
  | text (s : String)
  | elem (tag : String) (classes : List String) (attrs : List (String × String)) (children : List Node)

/-- Children of a node (text nodes have none). -/
def childrenOf : Node → List Node
  | Node.text _ => []
  | Node.elem _ _ _ ch => ch

/-- One compound CSS selector step: optional tag name, required classes,
required attribute values, and classes excluded by `:not(.c)`. -/
structure SSel where
  tag : Option String
  classes : List String
  attrs : List (String × String)
  notCls : List String
deriving DecidableEq, Repr

/-- A selector: a descendant chain of compound steps (last step is the
matched element, earlier steps must match strict ancestors in order). -/
def Sel := List SSel

/-- Attribute lookup on an element. -/
def getAttr (n : Node) (k : String) : Option String :=
  match n with
  | Node.text _ => Option.none
  | Node.elem _ _ attrs _ => (attrs.find? (fun p => p.fst == k)).map (fun p => p.snd)

/-- Does a node match one compound selector step? -/
def matchSimple (n : Node) (s : SSel) : Bool :=
  match n with
  | Node.text _ => false
  | Node.elem tag classes attrs _ =>
    (match s.tag with | Option.none => true | Option.some t => t == tag) &&
    s.classes.all (fun c => classes.contains c) &&
    s.attrs.all (fun kv => (attrs.find? (fun p => p.fst == kv.fst)).any (fun p => p.snd == kv.snd)) &&
    s.notCls.all (fun c => !(classes.contains c))

/-- Does the (reversed, nearest-ancestor-first) chain of selector steps embed
in the ancestor list (nearest first), in order? -/
def embedsAnc : List SSel → List Node → Bool
  | [], _ => true
  | _ :: _, [] => false
  | s :: ss, a :: as' => (matchSimple a s && embedsAnc ss as') || embedsAnc (s :: ss) as'

/-- Does node `n` with ancestor list `anc` (nearest first) match selector
`sel` (a descendant chain)? -/
def matchesAt (sel : Sel) (anc : List Node) (n : Node) : Bool :=
  match sel.reverse with
  | [] => false
  | tgt :: restRev => matchSimple n tgt && embedsAnc restRev anc

mutual
/-- All nodes in the subtree rooted at `n` (including `n`) matching `sel`,
in document (pre-order) order; `anc` is `n`'s ancestor list, nearest first. -/
def selectNode (sel : Sel) (anc : List Node) : Node → List Node
  | Node.text _ => []
  | Node.elem t c a ch =>
    (if matchesAt sel anc (Node.elem t c a ch) then [Node.elem t c a ch] else []) ++
      selectNodes sel (Node.elem t c a ch :: anc) ch
/-- `selectNode` mapped over a forest. -/
def selectNodes (sel : Sel) (anc : List Node) : List Node → List Node
  | [] => []
  | n :: ns => selectNode sel anc n ++ selectNodes sel anc ns
end

/-- Model of `Html::select` (document-wide selection, document order). -/
def documentSelect (doc : Node) (sel : Sel) : List Node :=
  selectNode sel [] doc

/-- Model of `ElementRef::select`: descendants of `e` (excluding `e` itself)
matching `sel`; `e` itself can serve as the ancestor of a descendant chain.
(Ancestors above the selection root are not consulted; the sources only rely
on chains resolved inside the selected subtree.) -/
def elementSelect (e : Node) (sel : Sel) : List Node :=
  selectNodes sel [e] (childrenOf e)

mutual
/-- Concatenated text of all text nodes in a subtree, in document order
(model of `ElementRef::text().collect::<String>()`). -/
def textOf : Node → String
  | Node.text s => s
  | Node.elem _ _ _ ch => textOfList ch
/-- `textOf` over a forest. -/
def textOfList : List Node → String
  | [] => ""
  | n :: ns => textOf n ++ textOfList ns
end

/-- Model of Rust `str::trim` (strip leading and trailing whitespace). -/
def trimString (s : String) : String :=
  String.mk (((s.data.dropWhile Char.isWhitespace).reverse.dropWhile Char.isWhitespace).reverse)

/-- `element.text().collect::<String>().trim().to_string()`. -/
def textTrim (n : Node) : String := trimString (textOf n)

/-! ## Feed model (rss crate `Item` / `Guid` / `Channel`) and responses -/

/-- rss `Guid`. -/
structure Guid where
  value : String
  permalink : Bool
deriving DecidableEq, Repr

/-- rss `Item`; only the fields the sources set (all others stay at their
builder defaults and are omitted). -/
structure Item where
  title : Option String
  link : Option String
  description : Option String
  guid : Option Guid
  pub_date : Option String
deriving DecidableEq, Repr

/-- rss `Channel`: envelope plus ordered items. -/
structure Channel where
  title : String
  link : String
  description : String
  items : List Item
deriving DecidableEq, Repr

/-- Observable response body: empty, or a rendered feed document. -/
inductive Body where
  | empty
  | feed (ch : Channel)
deriving DecidableEq, Repr

/-- Observable axum response: status code, content type, body. -/
structure Response where
  status : Nat
  contentType : Option String
  body : Body
deriving DecidableEq, Repr

/-- `StatusCode::NO_CONTENT.into_response()`. -/
def noContentResponse : Response := ⟨204, Option.none, Body.empty⟩

/-- `rss_utils::XML_TYPE`. -/
def XML_TYPE : String := "application/xml"

/-- Model of `rss_utils::make_rss`: 200 OK, `application/xml` content type,
the serialized channel as body.  (`HeaderValue::from_str` on the constant
`XML_TYPE` succeeds, so the function never takes its error path.) -/
def make_rss (ch : Channel) : Except String Response :=
  Except.ok ⟨200, Option.some XML_TYPE, Body.feed ch⟩

/-- Model of the per-entry `for` loop with `?` inside: build one item per
entry node, aborting with the first error. -/
def collectItems (f : Node → Except String Item) : List Node → Except String (List Item)
  | [] => Except.ok []
  | e :: es => do
    let item ← f e
    let rest ← collectItems f es
    Except.ok (item :: rest)

/-! ## Source: `isabel.rs` (El blog de Isabel) -/

/-- `isabel::BLOG_URL_BLOG`. -/
def BLOG_URL_BLOG : String := "https://marmenormarmayor.es/El-blog-de-Isabel/"

/-- `isabel::SELECTOR_SELECTION` (`.blogsection`). -/
def SELECTOR_SELECTION : Sel := [⟨Option.none, ["blogsection"], [], []⟩]
/-- `isabel::SELECTOR_TITLE` (`h3.blogtitle a`). -/
def SELECTOR_TITLE : Sel :=
  [⟨Option.some ("h3"), ["blogtitle"], [], []⟩, ⟨Option.some ("a"), [], [], []⟩]
/-- `isabel::SELECTOR_DATE` (`.blogdate`). -/
def SELECTOR_DATE : Sel := [⟨Option.none, ["blogdate"], [], []⟩]
/-- `isabel::SELECTOR_CONTENT` (`.blogcontent`). -/
def SELECTOR_CONTENT : Sel := [⟨Option.none, ["blogcontent"], [], []⟩]

/-- One iteration of the entry loop of `isabel::parse_content`: title, date
(normalized by `parse_date`), content, link (href of the first title-anchor
prefixed with `BLOG_URL_BLOG`), assembled into an rss item whose guid is the
link with `permalink = true`. -/
def isabelItem (element : Node) : Except String Item := do
  let title ← okOr ((elementSelect element SELECTOR_TITLE).head?.map textTrim)
    ("Unable to parse title")
  let dateRaw ← okOr ((elementSelect element SELECTOR_DATE).head?.map textTrim)
    ("Unable to parse date")
  let date ← parse_date dateRaw
  let content ← okOr ((elementSelect element SELECTOR_CONTENT).head?.map textTrim)
    ("Unable to parse content")
  let link ← okOr (((elementSelect element SELECTOR_TITLE).head?.bind
      (fun e => getAttr e ("href"))).map (fun s => BLOG_URL_BLOG ++ s))
    ("Unable to parse link")
  Except.ok ⟨Option.some title, Option.some link, Option.some content,
    Option.some ⟨link, true⟩, Option.some date⟩

/-- Model of `isabel::parse_content`: the fetched document's entry loop over
`.blogsection` matches, then `make_rss` on the assembled channel.  The fetch
outcome is the opaque input. -/
def parse_content (fetch : Except String Node) : Except String Response := do
  let document ← fetch
  let items ← collectItems isabelItem (documentSelect document SELECTOR_SELECTION)
  make_rss ⟨"El blog de Isabel", BLOG_URL_BLOG,
    "Últimas entradas del blog de Isabel", items⟩

/-- Model of the handler `isabel::rss`: the successful response, or the fixed
no-content outcome on any error. -/
def rss (fetch : Except String Node) : Response :=
  match parse_content fetch with
  | Except.ok resp => resp
  | Except.error _ => noContentResponse

/-! ## Source: `verde.rs` (elclickverde blog and reportajes) -/

/-- `verde::MAIN_URL`. -/
def MAIN_URL : String := "https://elclickverde.com"
/-- `verde::BLOG_URL`. -/
def BLOG_URL : String := "https://elclickverde.com/blog"
/-- `verde::REPORTAJES_URL`. -/
def REPORTAJES_URL : String := "https://elclickverde.com/reportajes"

/-- `verde::BLOG_SELECTOR_ENTRY` (`.views-row`). -/
def BLOG_SELECTOR_ENTRY : Sel := [⟨Option.none, ["views-row"], [], []⟩]
/-- `verde::BLOG_SELECTOR_HEADER` (`.group-header`). -/
def BLOG_SELECTOR_HEADER : Sel := [⟨Option.none, ["group-header"], [], []⟩]
/-- `verde::BLOG_SELECTOR_EVEN_HEADER` (`.field__item.even h2 a`). -/
def BLOG_SELECTOR_EVEN_HEADER : Sel :=
  [⟨Option.none, ["field__item", "even"], [], []⟩,
   ⟨Option.some ("h2"), [], [], []⟩, ⟨Option.some ("a"), [], [], []⟩]
/-- `verde::BLOG_SELECTOR_RIGHT` (`.group-right`). -/
def BLOG_SELECTOR_RIGHT : Sel := [⟨Option.none, ["group-right"], [], []⟩]
/-- `verde::BLOG_SELECTOR_EVEN_DESCRIPTION` (`p:not(.rteright)`). -/
def BLOG_SELECTOR_EVEN_DESCRIPTION : Sel :=
  [⟨Option.some ("p"), [], [], ["rteright"]⟩]
/-- `verde::BLOG_SELECTOR_EVEN_DATE` (`p.rteright span`). -/
def BLOG_SELECTOR_EVEN_DATE : Sel :=
  [⟨Option.some ("p"), ["rteright"], [], []⟩, ⟨Option.some ("span"), [], [], []⟩]

/-- One iteration of the entry loop of `verde::parse_blog`: header anchor
(title and origin-prefixed href), `.group-right` subtree (description and
ISO date, localized at Madrid noon), assembled like `isabelItem`. -/
def blogItem (element : Node) : Except String Item := do
  let header ← okOr ((elementSelect element BLOG_SELECTOR_HEADER).head?.bind
      (fun h => (elementSelect h BLOG_SELECTOR_EVEN_HEADER).head?))
    ("Unable to parse header")
  let url ← okOr ((getAttr header ("href")).map (fun s => MAIN_URL ++ s))
    ("Unable to extract URL")
  let title := textTrim header
  let right ← okOr ((elementSelect element BLOG_SELECTOR_RIGHT).head?)
    ("Unable to parse right")
  let description ← okOr ((elementSelect right BLOG_SELECTOR_EVEN_DESCRIPTION).head?.map textTrim)
    ("Unable to parse even description")
  let dateText ← okOr ((elementSelect right BLOG_SELECTOR_EVEN_DATE).head?.map textTrim)
    ("Unable to parse even date")
  let fecha ← parseIsoDate dateText
  let date ← localizeNoonRfc2822 fecha
  Except.ok ⟨Option.some title, Option.some url, Option.some description,
    Option.some ⟨url, true⟩, Option.some date⟩

/-- Model of `verde::parse_blog`. -/
def parse_blog (fetch : Except String Node) : Except String Response := do
  let document ← fetch
  let items ← collectItems blogItem (documentSelect document BLOG_SELECTOR_ENTRY)
  make_rss ⟨"Blog | elclickverde", BLOG_URL,
    "Últimas entradas del blog de elclickverde", items⟩

/-- Model of the handler `verde::blog_rss`. -/
def blog_rss (fetch : Except String Node) : Response :=
  match parse_blog fetch with
  | Except.ok resp => resp
  | Except.error _ => noContentResponse

/-- `verde::REPORTAJES_SELECTOR_ENTRY` (`.views-row`). -/
def REPORTAJES_SELECTOR_ENTRY : Sel := [⟨Option.none, ["views-row"], [], []⟩]
/-- `verde::REPORTAJES_SELECTOR_HEADER`
(`div.field__item.even[property="dc:title"] h2 a`). -/
def REPORTAJES_SELECTOR_HEADER : Sel :=
  [⟨Option.some ("div"), ["field__item", "even"], [("property", "dc:title")], []⟩,
   ⟨Option.some ("h2"), [], [], []⟩, ⟨Option.some ("a"), [], [], []⟩]
/-- `verde::REPORTAJES_SELECTOR_DESCRIPTION`
(`div.field__item.even[property="content:encoded"]`). -/
def REPORTAJES_SELECTOR_DESCRIPTION : Sel :=
  [⟨Option.some ("div"), ["field__item", "even"], [("property", "content:encoded")], []⟩]
/-- `verde::REPORTAJES_SELECTOR_P` (`p`). -/
def REPORTAJES_SELECTOR_P : Sel := [⟨Option.some ("p"), [], [], []⟩]
/-- `verde::REPORTAJES_SELECTOR_DATE` (`div.field.field--name-post-date`). -/
def REPORTAJES_SELECTOR_DATE : Sel :=
  [⟨Option.some ("div"), ["field", "field--name-post-date"], [], []⟩]
/-- `verde::REPORTAJES_SELECTOR_INNER_DATE` (`div.field__item.even`). -/
def REPORTAJES_SELECTOR_INNER_DATE : Sel :=
  [⟨Option.some ("div"), ["field__item", "even"], [], []⟩]

/-- One iteration of the entry loop of `verde::parse_reportajes`: header
anchor, description (the second `p` of the description container —
`p_tags.nth(1)`), nested date container text normalized by
`reportajes_date`. -/
def reportajesItem (element : Node) : Except String Item := do
  let header ← okOr ((elementSelect element REPORTAJES_SELECTOR_HEADER).head?)
    ("Unable to parse header")
  let url ← okOr ((getAttr header ("href")).map (fun s => MAIN_URL ++ s))
    ("Unable to extract URL")
  let title := textTrim header
  let desc ← okOr ((elementSelect element REPORTAJES_SELECTOR_DESCRIPTION).head?)
    ("Unable to parse description")
  let description ← okOr (((elementSelect desc REPORTAJES_SELECTOR_P)[1]?).map textTrim)
    ("Unable to extract description")
  let divDate ← okOr ((elementSelect element REPORTAJES_SELECTOR_DATE).head?.bind
      (fun h => (elementSelect h REPORTAJES_SELECTOR_INNER_DATE).head?))
    ("Unable to parse inner date")
  let date ← reportajes_date (textTrim divDate)
  Except.ok ⟨Option.some title, Option.some url, Option.some description,
    Option.some ⟨url, true⟩, Option.some date⟩

/-- Model of `verde::parse_reportajes`. -/
def parse_reportajes (fetch : Except String Node) : Except String Response := do
  let document ← fetch
  let items ← collectItems reportajesItem (documentSelect document REPORTAJES_SELECTOR_ENTRY)
  make_rss ⟨"Reportajes | elclickverde", REPORTAJES_URL,
    "Últimos reportajes de elclickverde", items⟩

/-- Model of the handler `verde::reportajes_rss`. -/
def reportajes_rss (fetch : Except String Node) : Response :=
  match parse_reportajes fetch with
  | Except.ok resp => resp
  | Except.error _ => noContentResponse

/-! ## Remaining definitions used by the theorems -/

/-- Items carried by a response body (empty body carries none). -/
def itemsOf (r : Response) : List Item :=
  match r.body with
  | Body.empty => []
  | Body.feed ch => ch.items

/-- Does the haystack start with the needle? -/
def startsWithList : List Char → List Char → Bool
  | _, [] => true
  | [], _ :: _ => false
  | h :: hs, n :: ns => h == n && startsWithList hs ns

/-- Substring occurrence test over character lists. -/
def containsSub : List Char → List Char → Bool
  | [], nd => nd.isEmpty
  | h :: hs, nd => startsWithList (h :: hs) nd || containsSub hs nd

/-- Does an error message mention (contain) a given token? -/
def mentionsToken (msg tok : String) : Bool := containsSub msg.data tok.data

/-- Modelled from the spec: the "base origin" of the isabel source — the
scheme-and-host origin of its URLs (the spec resolves root-relative hrefs
against "the source's base origin"). -/
def isabelBaseOrigin : String := "https://marmenormarmayor.es"

/-- No local timestamp congruent to noon (43200 mod 86400) lies in `[a, b)`:
checked as `b ≤ a + ((43200 − a) mod 86400)`, the first noon at or after `a`. -/
def avoidsNoonB (a b : Int) : Bool := decide (b ≤ a + (43200 - a) % 86400)

/-- The local start times of the timespans after the given one are
nondecreasing, starting from local instant `s`. -/
def startsChainB : Int → List (Int × Int) → Bool
  | _, [] => true
  | s, (t, o2) :: tl => decide (s ≤ t + o2) && startsChainB (t + o2) tl

/-- Well-formedness of a timespan set for noon resolution: every transition's
disturbed local interval `[t + min o o', t + max o o')` avoids noon, and
local start times are nondecreasing. -/
def goodSpansB : Int → List (Int × Int) → Bool
  | _, [] => true
  | o, (t, o2) :: tl =>
    avoidsNoonB (t + min o o2) (t + max o o2) && startsChainB (t + o2) tl && goodSpansB o2 tl

/-! ### Concrete documents used by the witnesses and counterexamples -/

/-- A verde blog document that is a single `.views-row` entry with no header:
its only entry fails extraction. -/
def brokenBlogDoc : Node := Node.elem "div" ["views-row"] [] []

/-- An isabel document that is a single complete `.blogsection` entry. -/
def goodIsabelDoc : Node :=
  Node.elem "div" ["blogsection"] []
    [Node.elem "h3" ["blogtitle"] []
       [Node.elem "a" [] [("href", "/entries/post.html")] [Node.text "Titulo"]],
     Node.elem "span" ["blogdate"] [] [Node.text "jueves, 3 de enero de 2024"],
     Node.elem "div" ["blogcontent"] [] [Node.text "Contenido"]]

/-- The item `isabelItem` extracts from `goodIsabelDoc`. -/
def goodIsabelItem : Item :=
  ⟨Option.some "Titulo",
   Option.some "https://marmenormarmayor.es/El-blog-de-Isabel//entries/post.html",
   Option.some "Contenido",
   Option.some ⟨"https://marmenormarmayor.es/El-blog-de-Isabel//entries/post.html", true⟩,
   Option.some "Wed, 03 Jan 2024 12:00:00 +0100"⟩

/-- A reportajes document that is a single complete `.views-row` entry. -/
def goodReportajesDoc : Node :=
  Node.elem "div" ["views-row"] []
    [Node.elem "div" ["field__item", "even"] [("property", "dc:title")]
       [Node.elem "h2" [] [] [Node.elem "a" [] [("href", "/rep/uno")] [Node.text "Rep"]]],
     Node.elem "div" ["field__item", "even"] [("property", "content:encoded")]
       [Node.elem "p" [] [] [Node.text "primero"], Node.elem "p" [] [] [Node.text "segundo"]],
     Node.elem "div" ["field", "field--name-post-date"] []
       [Node.elem "div" ["field__item", "even"] [] [Node.text "15 Ago. 2023"]]]

/-- The item `reportajesItem` extracts from `goodReportajesDoc`. -/
def goodReportajesItem : Item :=
  ⟨Option.some "Rep",
   Option.some "https://elclickverde.com/rep/uno",
   Option.some "segundo",
   Option.some ⟨"https://elclickverde.com/rep/uno", true⟩,
   Option.some "Tue, 15 Aug 2023 12:00:00 +0200"⟩

/-- The response `parse_reportajes` produces for `goodReportajesDoc`. -/
def goodReportajesResponse : Response :=
  ⟨200, Option.some XML_TYPE,
   Body.feed ⟨"Reportajes | elclickverde", REPORTAJES_URL,
     "Últimos reportajes de elclickverde", [goodReportajesItem]⟩⟩

/-- An isabel document (single entry) whose title-anchor href is
root-relative, used to compare base-URL and base-origin link resolution. -/
def rootHrefIsabelDoc : Node :=
  Node.elem "div" ["blogsection"] []
    [Node.elem "h3" ["blogtitle"] []
       [Node.elem "a" [] [("href", "/post.html")] [Node.text "T"]],
     Node.elem "span" ["blogdate"] [] [Node.text "jueves, 3 de enero de 2024"],
     Node.elem "div" ["blogcontent"] [] [Node.text "C"]]

/-! ## Theorems

### Reduction lemmas for the `Except` plumbing -/

theorem exbind_ok {α β : Type} (a : α) (f : α → Except String β) :
    (Except.ok a >>= f : Except String β) = f a := rfl

theorem exbind_err {α β : Type} (m : String) (f : α → Except String β) :
    (Except.error m >>= f : Except String β) = Except.error m := rfl

theorem okOr_some {α : Type} (a : α) (msg : String) :
    okOr (Option.some a) msg = Except.ok a := rfl

theorem okOr_none {α : Type} (msg : String) :
    okOr (Option.none : Option α) msg = Except.error msg := rfl

/-! ### Noon is always uniquely resolvable against the Madrid timespans -/

/-- If `[a, b)` passes the noon-avoidance check then it contains no local
timestamp congruent to noon. -/
theorem avoidsNoon_sound {a b L : Int} (h : avoidsNoonB a b = true)
    (hL : L % 86400 = 43200) : ¬(a ≤ L ∧ L < b) := by
  simp only [avoidsNoonB, decide_eq_true_eq] at h
  omega

/-- Any timestamp below the running local start is covered by no later span. -/
theorem coveringOffsets_nil_of_lt {tl : List (Int × Int)} :
    ∀ {o s L : Int}, L < s → startsChainB s tl = true →
      coveringOffsets (Option.some s) o tl L = [] := by
  induction tl with
  | nil =>
    intro o s L hlt _
    have hns : ¬(s ≤ L) := by omega
    simp [coveringOffsets, loOkB, hns]
  | cons hd tl ih =>
    intro o s L hlt hchain
    obtain ⟨t, o2⟩ := hd
    simp only [startsChainB, Bool.and_eq_true, decide_eq_true_eq] at hchain
    have hrec := @ih o2 (t + o2) L (show L < t + o2 by omega) hchain.2
    have hns : ¬(s ≤ L) := by omega
    simp [coveringOffsets, hrec, loOkB, hns]

/-- A noon-class local timestamp is covered by exactly one timespan of any
well-formed timespan set whose current span already covers it from below. -/
theorem coveringOffsets_noon {tl : List (Int × Int)} :
    ∀ {o : Int} {lo : Option Int} {L : Int}, L % 86400 = 43200 →
      loOkB lo L = true → goodSpansB o tl = true →
      (coveringOffsets lo o tl L).length = 1 := by
  induction tl with
  | nil =>
    intro o lo L _ hlo _
    simp [coveringOffsets, hlo]
  | cons hd tl ih =>
    intro o lo L hL hlo hgood
    obtain ⟨t, o2⟩ := hd
    simp only [goodSpansB, Bool.and_eq_true] at hgood
    obtain ⟨⟨hav, hchain⟩, hgd⟩ := hgood
    have hnotin := avoidsNoon_sound hav hL
    have hb1 : min o o2 ≤ o := min_le_left _ _
    have hb2 : min o o2 ≤ o2 := min_le_right _ _
    have hb3 : o ≤ max o o2 := le_max_left _ _
    have hb4 : o2 ≤ max o o2 := le_max_right _ _
    by_cases hcase : L < t + min o o2
    · have h0 := @coveringOffsets_nil_of_lt tl o2 (t + o2) L (show L < t + o2 by omega) hchain
      have hlt : L < t + o := by omega
      simp [coveringOffsets, h0, hlo, hlt]
    · have hge : t + max o o2 ≤ L := by omega
      have hlo2 : loOkB (Option.some (t + o2)) L = true := by
        simp only [loOkB, decide_eq_true_eq]; omega
      have htl := ih hL hlo2 hgd
      have hno : ¬(L < t + o) := by omega
      simp [coveringOffsets, hlo, hno, htl]

/-- The Madrid timespan table passes the well-formedness check. -/
theorem madridSpans_good : goodSpansB madridLMT madridSpans = true := by decide

/-- Every noon-class local timestamp resolves to a unique instant in the
modelled Madrid timezone. -/
theorem resolveLocalMadrid_noon (L : Int) (hL : L % 86400 = 43200) :
    ∃ o, resolveLocalMadrid L = LocalResult.single o := by
  have hlen := @coveringOffsets_noon madridSpans madridLMT Option.none L hL rfl madridSpans_good
  obtain ⟨o, ho⟩ := List.length_eq_one.mp hlen
  exact ⟨o, by simp [resolveLocalMadrid, ho]⟩

/-- The noon timestamp of any date is noon-class. -/
theorem noonTimestamp_mod (d : YMD) : noonTimestamp d % 86400 = 43200 := by
  unfold noonTimestamp
  omega

/-- Madrid-noon localization never takes the `Invalid timezone` branch. -/
theorem localizeNoon_ok (d : YMD) :
    ∃ o, localizeNoonRfc2822 d = Except.ok (rfc2822String d 12 0 0 o) := by
  obtain ⟨o, ho⟩ := resolveLocalMadrid_noon (noonTimestamp d) (noonTimestamp_mod d)
  exact ⟨o, by simp [localizeNoonRfc2822, ho]⟩

/-! ### The entry loop: error propagation, completeness, order preservation -/

/-- If any entry fails extraction, the whole loop fails. -/
theorem collectItems_error_of_mem {f : Node → Except String Item} {l : List Node}
    {e : Node} {m : String} (he : e ∈ l) (hf : f e = Except.error m) :
    ∃ m2, collectItems f l = Except.error m2 := by
  induction l with
  | nil => cases he
  | cons hd tl ih =>
    cases he with
    | head =>
      exact ⟨m, by simp [collectItems, hf, exbind_err]⟩
    | tail _ htl =>
      match hhd : f hd with
      | Except.error m0 => exact ⟨m0, by simp [collectItems, hhd, exbind_err]⟩
      | Except.ok it =>
        obtain ⟨m2, hm2⟩ := ih htl
        exact ⟨m2, by simp [collectItems, hhd, exbind_ok, hm2, exbind_err]⟩

/-- If every entry extracts, the loop succeeds and produces exactly one item
per entry, in order. -/
theorem collectItems_ok_of_all {f : Node → Except String Item} {l : List Node}
    (h : ∀ e ∈ l, ∃ it, f e = Except.ok it) :
    ∃ items, collectItems f l = Except.ok items ∧
      items.length = l.length ∧
      ∀ k : Nat, items[k]? = (l[k]?).bind (fun e => (f e).toOption) := by
  induction l with
  | nil => exact ⟨[], rfl, rfl, fun k => by cases k <;> rfl⟩
  | cons hd tl ih =>
    obtain ⟨it, hit⟩ := h hd (List.mem_cons_self hd tl)
    obtain ⟨items, hok, hlen, hget⟩ := ih (fun e he => h e (List.mem_cons_of_mem hd he))
    refine ⟨it :: items, ?_, by simpa using hlen, ?_⟩
    · simp [collectItems, hit, hok, exbind_ok]
    · intro k
      cases k with
      | zero => simp [hit, Except.toOption]
      | succ k => simpa using hget k

/-- Every produced item comes from some entry. -/
theorem mem_of_collectItems_ok {f : Node → Except String Item} {l : List Node}
    {items : List Item} (h : collectItems f l = Except.ok items) :
    ∀ it ∈ items, ∃ e ∈ l, f e = Except.ok it := by
  induction l generalizing items with
  | nil =>
    cases h
    intro it hit
    cases hit
  | cons hd tl ih =>
    match hhd : f hd with
    | Except.error m0 => simp [collectItems, hhd, exbind_err] at h
    | Except.ok it0 =>
      match htl : collectItems f tl with
      | Except.error m0 => simp [collectItems, hhd, htl, exbind_ok, exbind_err] at h
      | Except.ok rest =>
        have : items = it0 :: rest := by
          have h2 := h.symm
          simp [collectItems, hhd, htl, exbind_ok] at h2
          exact h2
        subst this
        intro it hit
        cases hit with
        | head => exact ⟨hd, List.mem_cons_self hd tl, hhd⟩
        | tail _ hmem =>
          obtain ⟨e, hel, hfe⟩ := ih htl it hmem
          exact ⟨e, List.mem_cons_of_mem hd hel, hfe⟩

/-! ### Shape of the items each builder constructs -/

/-- Every item `isabelItem` builds links the title anchor's href prefixed
with the blog base URL, and reuses that link as its permalink guid. -/
theorem isabelItem_shape {e : Node} {it : Item} (h : isabelItem e = Except.ok it) :
    ∃ href,
      (elementSelect e SELECTOR_TITLE).head?.bind (fun a => getAttr a ("href")) =
        Option.some href ∧
      it.link = Option.some (BLOG_URL_BLOG ++ href) ∧
      it.guid = Option.some ⟨BLOG_URL_BLOG ++ href, true⟩ := by
  cases hT : (elementSelect e SELECTOR_TITLE).head?.map textTrim with
  | none => simp [isabelItem, hT, okOr_none, exbind_err] at h
  | some title =>
  cases hD : (elementSelect e SELECTOR_DATE).head?.map textTrim with
  | none => simp [isabelItem, hT, hD, okOr_none, okOr_some, exbind_ok, exbind_err] at h
  | some dateRaw =>
  cases hPD : parse_date dateRaw with
  | error m => simp [isabelItem, hT, hD, hPD, okOr_some, exbind_ok, exbind_err] at h
  | ok date =>
  cases hC : (elementSelect e SELECTOR_CONTENT).head?.map textTrim with
  | none => simp [isabelItem, hT, hD, hPD, hC, okOr_none, okOr_some, exbind_ok, exbind_err] at h
  | some content =>
  cases hL : (elementSelect e SELECTOR_TITLE).head?.bind (fun a => getAttr a ("href")) with
  | none => simp [isabelItem, hT, hD, hPD, hC, hL, okOr_none, okOr_some, exbind_ok, exbind_err] at h
  | some href =>
    simp only [isabelItem, hT, hD, hPD, hC, hL, Option.map_some', okOr_some,
      exbind_ok] at h
    refine ⟨href, rfl, ?_, ?_⟩ <;> (injection h with h2; rw [← h2])

/-- Every item `blogItem` builds links the header anchor's href prefixed
with the site origin, and reuses that link as its permalink guid. -/
theorem blogItem_shape {e : Node} {it : Item} (h : blogItem e = Except.ok it) :
    ∃ href,
      ((elementSelect e BLOG_SELECTOR_HEADER).head?.bind
        (fun hd => (elementSelect hd BLOG_SELECTOR_EVEN_HEADER).head?)).bind
        (fun a => getAttr a ("href")) = Option.some href ∧
      it.link = Option.some (MAIN_URL ++ href) ∧
      it.guid = Option.some ⟨MAIN_URL ++ href, true⟩ := by
  cases hH : (elementSelect e BLOG_SELECTOR_HEADER).head?.bind
      (fun hd => (elementSelect hd BLOG_SELECTOR_EVEN_HEADER).head?) with
  | none => simp [blogItem, hH, okOr_none, exbind_err] at h
  | some header =>
  cases hU : getAttr header ("href") with
  | none => simp [blogItem, hH, hU, okOr_none, okOr_some, exbind_ok, exbind_err] at h
  | some href =>
  cases hR : (elementSelect e BLOG_SELECTOR_RIGHT).head? with
  | none => simp [blogItem, hH, hU, hR, okOr_none, okOr_some, exbind_ok, exbind_err] at h
  | some right =>
  cases hDesc : (elementSelect right BLOG_SELECTOR_EVEN_DESCRIPTION).head?.map textTrim with
  | none => simp [blogItem, hH, hU, hR, hDesc, okOr_none, okOr_some, exbind_ok, exbind_err] at h
  | some description =>
  cases hDT : (elementSelect right BLOG_SELECTOR_EVEN_DATE).head?.map textTrim with
  | none => simp [blogItem, hH, hU, hR, hDesc, hDT, okOr_none, okOr_some, exbind_ok, exbind_err] at h
  | some dateText =>
  cases hF : parseIsoDate dateText with
  | error m => simp [blogItem, hH, hU, hR, hDesc, hDT, hF, okOr_some, exbind_ok, exbind_err] at h
  | ok fecha =>
  cases hLoc : localizeNoonRfc2822 fecha with
  | error m =>
    simp [blogItem, hH, hU, hR, hDesc, hDT, hF, hLoc, okOr_some, exbind_ok, exbind_err] at h
  | ok date =>
    simp only [blogItem, hH, hU, hR, hDesc, hDT, hF, hLoc, Option.map_some',
      okOr_some, exbind_ok] at h
    refine ⟨href, by simp [hH, hU], ?_, ?_⟩ <;> (injection h with h2; rw [← h2])

/-- Every item `reportajesItem` builds links the header anchor's href
prefixed with the site origin, and reuses that link as its permalink guid. -/
theorem reportajesItem_shape {e : Node} {it : Item} (h : reportajesItem e = Except.ok it) :
    ∃ href,
      (elementSelect e REPORTAJES_SELECTOR_HEADER).head?.bind
        (fun a => getAttr a ("href")) = Option.some href ∧
      it.link = Option.some (MAIN_URL ++ href) ∧
      it.guid = Option.some ⟨MAIN_URL ++ href, true⟩ := by
  cases hH : (elementSelect e REPORTAJES_SELECTOR_HEADER).head? with
  | none => simp [reportajesItem, hH, okOr_none, exbind_err] at h
  | some header =>
  cases hU : getAttr header ("href") with
  | none => simp [reportajesItem, hH, hU, okOr_none, okOr_some, exbind_ok, exbind_err] at h
  | some href =>
  cases hDc : (elementSelect e REPORTAJES_SELECTOR_DESCRIPTION).head? with
  | none => simp [reportajesItem, hH, hU, hDc, okOr_none, okOr_some, exbind_ok, exbind_err] at h
  | some desc =>
  cases hP : (elementSelect desc REPORTAJES_SELECTOR_P)[1]?.map textTrim with
  | none => simp [reportajesItem, hH, hU, hDc, hP, okOr_none, okOr_some, exbind_ok, exbind_err] at h
  | some description =>
  cases hDv : (elementSelect e REPORTAJES_SELECTOR_DATE).head?.bind
      (fun hd => (elementSelect hd REPORTAJES_SELECTOR_INNER_DATE).head?) with
  | none => simp [reportajesItem, hH, hU, hDc, hP, hDv, okOr_none, okOr_some, exbind_ok, exbind_err] at h
  | some divDate =>
  cases hRD : reportajes_date (textTrim divDate) with
  | error m =>
    simp [reportajesItem, hH, hU, hDc, hP, hDv, hRD, okOr_some, exbind_ok, exbind_err] at h
  | ok date =>
    simp only [reportajesItem, hH, hU, hDc, hP, hDv, hRD, Option.map_some',
      okOr_some, exbind_ok] at h
    refine ⟨href, by simp [hH, hU], ?_, ?_⟩ <;> (injection h with h2; rw [← h2])

/-! ### The `Invalid timezone` branch is dead code -/

/-- `parseU32` only ever produces one of its three `ParseIntError` messages. -/
theorem parseU32_msgs (s m : String) (h : parseU32 s = Except.error m) :
    m = "cannot parse integer from empty string" ∨ m = "invalid digit found in string" ∨
      m = "number too large to fit in target type" := by
  unfold parseU32 at h
  split at h
  all_goals (try dsimp only at h)
  all_goals repeat' split at h
  all_goals simp_all

/-- `parseI32` only ever produces one of its four `ParseIntError` messages. -/
theorem parseI32_msgs (s m : String) (h : parseI32 s = Except.error m) :
    m = "cannot parse integer from empty string" ∨ m = "invalid digit found in string" ∨
      m = "number too large to fit in target type" ∨
      m = "number too small to fit in target type" := by
  unfold parseI32 at h
  split at h
  all_goals (try dsimp only at h)
  all_goals repeat' split at h
  all_goals simp_all

/-- A failing full-month lookup names the offending token. -/
theorem monthFromName_msgs (s m : String) (h : monthFromName s = Except.error m) :
    m = "Not a valid month: " ++ s := by
  unfold monthFromName at h
  split at h
  all_goals simp_all

/-- A failing abbreviated-month lookup names the offending token. -/
theorem monthFromAbbrev_msgs (s m : String) (h : monthFromAbbrev s = Except.error m) :
    m = "Not a valid month: " ++ s := by
  unfold monthFromAbbrev at h
  split at h
  all_goals simp_all

/-- A failing date formation reports the offending values. -/
theorem fromYmdStep_msgs (y : Int) (mo d : Nat) (m : String)
    (h : fromYmdStep y mo d = Except.error m) :
    m = "Unable to form date with values year = " ++ toString y ++
      ", month = " ++ toString mo ++ " and day = " ++ toString d := by
  unfold fromYmdStep okOr at h
  split at h
  all_goals simp_all

/-- The month-naming error is never the timezone error (length mismatch). -/
theorem notMonth_ne_tz (s : String) :
    "Not a valid month: " ++ s ≠ "Invalid timezone" := by
  intro h
  have hl := congrArg String.length h
  rw [String.length_append] at hl
  have h1 : ("Not a valid month: ").length = 19 := rfl
  have h2 : ("Invalid timezone").length = 16 := rfl
  omega

/-- The date-formation error is never the timezone error (length mismatch). -/
theorem fromYmdMsg_ne_tz (a b c : String) :
    "Unable to form date with values year = " ++ a ++ ", month = " ++ b ++
      " and day = " ++ c ≠ "Invalid timezone" := by
  intro h
  have hl := congrArg String.length h
  simp only [String.length_append] at hl
  have h1 : ("Unable to form date with values year = ").length = 39 := rfl
  have h2 : ("Invalid timezone").length = 16 := rfl
  have h3 : (", month = ").length = 10 := rfl
  have h4 : (" and day = ").length = 11 := rfl
  omega

/-- `isabel::parse_date` can never return the `Invalid timezone` error: every
date that reaches localization resolves uniquely at Madrid noon, and every
earlier failure carries a different message. -/
theorem parse_date_ne_tzErr (s : String) :
    parse_date s ≠ Except.error ("Invalid timezone") := by
  intro h
  cases hT1 : (split_whitespace s)[1]? with
  | none => simp [parse_date, hT1, okOr_none, exbind_err] at h
  | some dayTok =>
  cases hPd : parseU32 dayTok with
  | error m =>
    simp [parse_date, hT1, hPd, okOr_some, exbind_ok, exbind_err] at h
    have h3 := parseU32_msgs dayTok m hPd
    subst h
    simp at h3
  | ok day =>
  cases hT5 : (split_whitespace s)[5]? with
  | none => simp [parse_date, hT1, hPd, hT5, okOr_none, okOr_some, exbind_ok, exbind_err] at h
  | some yearTok =>
  cases hPy : parseI32 yearTok with
  | error m =>
    simp [parse_date, hT1, hPd, hT5, hPy, okOr_some, exbind_ok, exbind_err] at h
    have h3 := parseI32_msgs yearTok m hPy
    subst h
    simp at h3
  | ok year =>
  cases hT3 : (split_whitespace s)[3]? with
  | none =>
    simp [parse_date, hT1, hPd, hT5, hPy, hT3, okOr_none, okOr_some, exbind_ok, exbind_err] at h
  | some monthTok =>
  cases hPm : monthFromName monthTok with
  | error m =>
    simp [parse_date, hT1, hPd, hT5, hPy, hT3, hPm, okOr_some, exbind_ok, exbind_err] at h
    have h3 := monthFromName_msgs monthTok m hPm
    subst h
    exact notMonth_ne_tz monthTok h3.symm
  | ok month =>
  cases hF : fromYmdStep year month day with
  | error m =>
    simp [parse_date, hT1, hPd, hT5, hPy, hT3, hPm, hF, okOr_some, exbind_ok, exbind_err] at h
    have h3 := fromYmdStep_msgs year month day m hF
    subst h
    exact fromYmdMsg_ne_tz _ _ _ h3.symm
  | ok date =>
    obtain ⟨o, ho⟩ := localizeNoon_ok date
    simp [parse_date, hT1, hPd, hT5, hPy, hT3, hPm, hF, ho, okOr_some, exbind_ok] at h

/-- `verde::reportajes_date` can never return the `Invalid timezone` error. -/
theorem reportajes_date_ne_tzErr (s : String) :
    reportajes_date s ≠ Except.error ("Invalid timezone") := by
  intro h
  cases hT0 : (split_whitespace s)[0]? with
  | none => simp [reportajes_date, hT0, okOr_none, exbind_err] at h
  | some dayTok =>
  cases hPd : parseU32 dayTok with
  | error m =>
    simp [reportajes_date, hT0, hPd, okOr_some, exbind_ok, exbind_err] at h
    have h3 := parseU32_msgs dayTok m hPd
    subst h
    simp at h3
  | ok day =>
  cases hT2 : (split_whitespace s)[2]? with
  | none => simp [reportajes_date, hT0, hPd, hT2, okOr_none, okOr_some, exbind_ok, exbind_err] at h
  | some yearTok =>
  cases hPy : parseI32 yearTok with
  | error m =>
    simp [reportajes_date, hT0, hPd, hT2, hPy, okOr_some, exbind_ok, exbind_err] at h
    have h3 := parseI32_msgs yearTok m hPy
    subst h
    simp at h3
  | ok year =>
  cases hT1 : (split_whitespace s)[1]? with
  | none =>
    simp [reportajes_date, hT0, hPd, hT2, hPy, hT1, okOr_none, okOr_some, exbind_ok, exbind_err] at h
  | some monthTok =>
  cases hPm : monthFromAbbrev monthTok with
  | error m =>
    simp [reportajes_date, hT0, hPd, hT2, hPy, hT1, hPm, okOr_some, exbind_ok, exbind_err] at h
    have h3 := monthFromAbbrev_msgs monthTok m hPm
    subst h
    exact notMonth_ne_tz monthTok h3.symm
  | ok month =>
  cases hF : fromYmdStep year month day with
  | error m =>
    simp [reportajes_date, hT0, hPd, hT2, hPy, hT1, hPm, hF, okOr_some, exbind_ok, exbind_err] at h
    have h3 := fromYmdStep_msgs year month day m hF
    subst h
    exact fromYmdMsg_ne_tz _ _ _ h3.symm
  | ok date =>
    obtain ⟨o, ho⟩ := localizeNoon_ok date
    simp [reportajes_date, hT0, hPd, hT2, hPy, hT1, hPm, hF, ho, okOr_some, exbind_ok] at h

/-! ### Decomposition of the parsers and the panic-aware model -/

/-- `parse_date` is its date-producing prefix followed by the Madrid-noon
localization. -/
theorem parse_date_decomp (s : String) :
    parse_date s = parse_date_ymd s >>= fun d => localizeNoonRfc2822 d := by
  cases hT1 : (split_whitespace s)[1]? with
  | none => simp [parse_date, parse_date_ymd, hT1, okOr_none, exbind_err]
  | some dayTok =>
  cases hPd : parseU32 dayTok with
  | error m => simp [parse_date, parse_date_ymd, hT1, hPd, okOr_some, exbind_ok, exbind_err]
  | ok day =>
  cases hT5 : (split_whitespace s)[5]? with
  | none =>
    simp [parse_date, parse_date_ymd, hT1, hPd, hT5, okOr_none, okOr_some, exbind_ok, exbind_err]
  | some yearTok =>
  cases hPy : parseI32 yearTok with
  | error m =>
    simp [parse_date, parse_date_ymd, hT1, hPd, hT5, hPy, okOr_some, exbind_ok, exbind_err]
  | ok year =>
  cases hT3 : (split_whitespace s)[3]? with
  | none =>
    simp [parse_date, parse_date_ymd, hT1, hPd, hT5, hPy, hT3, okOr_none, okOr_some,
      exbind_ok, exbind_err]
  | some monthTok =>
  cases hPm : monthFromName monthTok with
  | error m =>
    simp [parse_date, parse_date_ymd, hT1, hPd, hT5, hPy, hT3, hPm, okOr_some,
      exbind_ok, exbind_err]
  | ok month =>
  cases hF : fromYmdStep year month day with
  | error m =>
    simp [parse_date, parse_date_ymd, hT1, hPd, hT5, hPy, hT3, hPm, hF, okOr_some,
      exbind_ok, exbind_err]
  | ok date =>
    simp [parse_date, parse_date_ymd, hT1, hPd, hT5, hPy, hT3, hPm, hF, okOr_some, exbind_ok]

/-- `reportajes_date` is its date-producing prefix followed by the
Madrid-noon localization. -/
theorem reportajes_date_decomp (s : String) :
    reportajes_date s = reportajes_date_ymd s >>= fun d => localizeNoonRfc2822 d := by
  cases hT0 : (split_whitespace s)[0]? with
  | none => simp [reportajes_date, reportajes_date_ymd, hT0, okOr_none, exbind_err]
  | some dayTok =>
  cases hPd : parseU32 dayTok with
  | error m =>
    simp [reportajes_date, reportajes_date_ymd, hT0, hPd, okOr_some, exbind_ok, exbind_err]
  | ok day =>
  cases hT2 : (split_whitespace s)[2]? with
  | none =>
    simp [reportajes_date, reportajes_date_ymd, hT0, hPd, hT2, okOr_none, okOr_some,
      exbind_ok, exbind_err]
  | some yearTok =>
  cases hPy : parseI32 yearTok with
  | error m =>
    simp [reportajes_date, reportajes_date_ymd, hT0, hPd, hT2, hPy, okOr_some,
      exbind_ok, exbind_err]
  | ok year =>
  cases hT1 : (split_whitespace s)[1]? with
  | none =>
    simp [reportajes_date, reportajes_date_ymd, hT0, hPd, hT2, hPy, hT1, okOr_none,
      okOr_some, exbind_ok, exbind_err]
  | some monthTok =>
  cases hPm : monthFromAbbrev monthTok with
  | error m =>
    simp [reportajes_date, reportajes_date_ymd, hT0, hPd, hT2, hPy, hT1, hPm, okOr_some,
      exbind_ok, exbind_err]
  | ok month =>
  cases hF : fromYmdStep year month day with
  | error m =>
    simp [reportajes_date, reportajes_date_ymd, hT0, hPd, hT2, hPy, hT1, hPm, hF,
      okOr_some, exbind_ok, exbind_err]
  | ok date =>
    simp [reportajes_date, reportajes_date_ymd, hT0, hPd, hT2, hPy, hT1, hPm, hF,
      okOr_some, exbind_ok]

/-- On every returning execution the panic-aware model returns exactly what
`parse_date` computes: `parse_date` models the returning executions. -/
theorem parse_date_outcome_agrees (s : String) (r : Except String String)
    (h : parse_date_outcome s = Option.some r) : parse_date s = r := by
  rw [parse_date_decomp]
  cases hy : parse_date_ymd s with
  | error m =>
    simp only [parse_date_outcome, hy] at h
    rw [exbind_err]
    exact Option.some.inj h
  | ok d =>
    simp only [parse_date_outcome, hy] at h
    by_cases hr : 0 ≤ d.year ∧ d.year ≤ 9999
    · rw [if_pos hr] at h
      rw [exbind_ok]
      exact Option.some.inj h
    · rw [if_neg hr] at h
      simp at h

/-- See `parse_date_outcome_agrees`. -/
theorem reportajes_date_outcome_agrees (s : String) (r : Except String String)
    (h : reportajes_date_outcome s = Option.some r) : reportajes_date s = r := by
  rw [reportajes_date_decomp]
  cases hy : reportajes_date_ymd s with
  | error m =>
    simp only [reportajes_date_outcome, hy] at h
    rw [exbind_err]
    exact Option.some.inj h
  | ok d =>
    simp only [reportajes_date_outcome, hy] at h
    by_cases hr : 0 ≤ d.year ∧ d.year ≤ 9999
    · rw [if_pos hr] at h
      rw [exbind_ok]
      exact Option.some.inj h
    · rw [if_neg hr] at h
      simp at h

/-! ### The claims -/

/-- Claim C1: for every fetched document and every source, if any entry node
matching the entry-boundary selector fails to yield a mandatory field (its
per-entry extraction errors), the whole request fails: no feed is rendered,
including for entries that extracted successfully, and the response is the
fixed no-content outcome. -/
theorem claim_C1 :
    (∀ (doc e : Node) (m : String), e ∈ documentSelect doc SELECTOR_SELECTION →
      isabelItem e = Except.error m → rss (Except.ok doc) = noContentResponse) ∧
    (∀ (doc e : Node) (m : String), e ∈ documentSelect doc BLOG_SELECTOR_ENTRY →
      blogItem e = Except.error m → blog_rss (Except.ok doc) = noContentResponse) ∧
    (∀ (doc e : Node) (m : String), e ∈ documentSelect doc REPORTAJES_SELECTOR_ENTRY →
      reportajesItem e = Except.error m →
        reportajes_rss (Except.ok doc) = noContentResponse) := by
  refine ⟨?_, ?_, ?_⟩ <;>
    (intro doc e m he hf
     obtain ⟨m2, hm2⟩ := collectItems_error_of_mem he hf
     simp [rss, blog_rss, reportajes_rss, parse_content, parse_blog, parse_reportajes,
       exbind_ok, hm2, exbind_err])

/-- Claim C2: a document with zero entry-boundary matches yields a success
response: status 200, XML content type, and a feed with an empty item list,
for each of the three sources. -/
theorem claim_C2 :
    (∀ doc : Node, documentSelect doc SELECTOR_SELECTION = [] →
      rss (Except.ok doc) = ⟨200, Option.some XML_TYPE,
        Body.feed ⟨"El blog de Isabel", BLOG_URL_BLOG,
          "Últimas entradas del blog de Isabel", []⟩⟩) ∧
    (∀ doc : Node, documentSelect doc BLOG_SELECTOR_ENTRY = [] →
      blog_rss (Except.ok doc) = ⟨200, Option.some XML_TYPE,
        Body.feed ⟨"Blog | elclickverde", BLOG_URL,
          "Últimas entradas del blog de elclickverde", []⟩⟩) ∧
    (∀ doc : Node, documentSelect doc REPORTAJES_SELECTOR_ENTRY = [] →
      reportajes_rss (Except.ok doc) = ⟨200, Option.some XML_TYPE,
        Body.feed ⟨"Reportajes | elclickverde", REPORTAJES_URL,
          "Últimos reportajes de elclickverde", []⟩⟩) := by
  refine ⟨?_, ?_, ?_⟩ <;>
    (intro doc h
     simp [rss, blog_rss, reportajes_rss, parse_content, parse_blog, parse_reportajes,
       h, collectItems, make_rss, exbind_ok, XML_TYPE])

/-- Claim C3: for every well-formed document (each matched entry extracts),
each parser succeeds and produces exactly one feed item per entry-boundary
match, in document encounter order (item `k` is the extraction of entry `k`,
so there is no re-sorting and no deduplication). -/
theorem claim_C3 :
    (∀ doc : Node,
      (∀ e ∈ documentSelect doc SELECTOR_SELECTION, ∃ it, isabelItem e = Except.ok it) →
      ∃ items, parse_content (Except.ok doc) = Except.ok ⟨200, Option.some XML_TYPE,
          Body.feed ⟨"El blog de Isabel", BLOG_URL_BLOG,
            "Últimas entradas del blog de Isabel", items⟩⟩ ∧
        items.length = (documentSelect doc SELECTOR_SELECTION).length ∧
        ∀ k : Nat, items[k]? =
          ((documentSelect doc SELECTOR_SELECTION)[k]?).bind
            (fun e => (isabelItem e).toOption)) ∧
    (∀ doc : Node,
      (∀ e ∈ documentSelect doc BLOG_SELECTOR_ENTRY, ∃ it, blogItem e = Except.ok it) →
      ∃ items, parse_blog (Except.ok doc) = Except.ok ⟨200, Option.some XML_TYPE,
          Body.feed ⟨"Blog | elclickverde", BLOG_URL,
            "Últimas entradas del blog de elclickverde", items⟩⟩ ∧
        items.length = (documentSelect doc BLOG_SELECTOR_ENTRY).length ∧
        ∀ k : Nat, items[k]? =
          ((documentSelect doc BLOG_SELECTOR_ENTRY)[k]?).bind
            (fun e => (blogItem e).toOption)) ∧
    (∀ doc : Node,
      (∀ e ∈ documentSelect doc REPORTAJES_SELECTOR_ENTRY, ∃ it, reportajesItem e = Except.ok it) →
      ∃ items, parse_reportajes (Except.ok doc) = Except.ok ⟨200, Option.some XML_TYPE,
          Body.feed ⟨"Reportajes | elclickverde", REPORTAJES_URL,
            "Últimos reportajes de elclickverde", items⟩⟩ ∧
        items.length = (documentSelect doc REPORTAJES_SELECTOR_ENTRY).length ∧
        ∀ k : Nat, items[k]? =
          ((documentSelect doc REPORTAJES_SELECTOR_ENTRY)[k]?).bind
            (fun e => (reportajesItem e).toOption)) := by
  refine ⟨?_, ?_, ?_⟩ <;>
    (intro doc hall
     obtain ⟨items, hok, hlen, hget⟩ := collectItems_ok_of_all hall
     exact ⟨items, by simp [parse_content, parse_blog, parse_reportajes, exbind_ok, hok,
       make_rss, XML_TYPE], hlen, hget⟩)

/-- Claim C4: every feed item constructed by any of the three builders has a
guid equal to the item's link with the permalink flag set to true. -/
theorem claim_C4 :
    (∀ (doc : Node) (resp : Response), parse_content (Except.ok doc) = Except.ok resp →
      ∀ it ∈ itemsOf resp, ∃ l, it.link = Option.some l ∧
        it.guid = Option.some ⟨l, true⟩) ∧
    (∀ (doc : Node) (resp : Response), parse_blog (Except.ok doc) = Except.ok resp →
      ∀ it ∈ itemsOf resp, ∃ l, it.link = Option.some l ∧
        it.guid = Option.some ⟨l, true⟩) ∧
    (∀ (doc : Node) (resp : Response), parse_reportajes (Except.ok doc) = Except.ok resp →
      ∀ it ∈ itemsOf resp, ∃ l, it.link = Option.some l ∧
        it.guid = Option.some ⟨l, true⟩) := by
  refine ⟨?_, ?_, ?_⟩
  · intro doc resp hresp it hit
    cases hc : collectItems isabelItem (documentSelect doc SELECTOR_SELECTION) with
    | error m => simp [parse_content, exbind_ok, hc, exbind_err] at hresp
    | ok items =>
      simp only [parse_content, exbind_ok, hc, make_rss] at hresp
      injection hresp with hresp
      rw [← hresp] at hit
      simp only [itemsOf] at hit
      obtain ⟨e, _, hfe⟩ := mem_of_collectItems_ok hc it hit
      obtain ⟨href, _, hlink, hguid⟩ := isabelItem_shape hfe
      exact ⟨BLOG_URL_BLOG ++ href, hlink, hguid⟩
  · intro doc resp hresp it hit
    cases hc : collectItems blogItem (documentSelect doc BLOG_SELECTOR_ENTRY) with
    | error m => simp [parse_blog, exbind_ok, hc, exbind_err] at hresp
    | ok items =>
      simp only [parse_blog, exbind_ok, hc, make_rss] at hresp
      injection hresp with hresp
      rw [← hresp] at hit
      simp only [itemsOf] at hit
      obtain ⟨e, _, hfe⟩ := mem_of_collectItems_ok hc it hit
      obtain ⟨href, _, hlink, hguid⟩ := blogItem_shape hfe
      exact ⟨MAIN_URL ++ href, hlink, hguid⟩
  · intro doc resp hresp it hit
    cases hc : collectItems reportajesItem (documentSelect doc REPORTAJES_SELECTOR_ENTRY) with
    | error m => simp [parse_reportajes, exbind_ok, hc, exbind_err] at hresp
    | ok items =>
      simp only [parse_reportajes, exbind_ok, hc, make_rss] at hresp
      injection hresp with hresp
      rw [← hresp] at hit
      simp only [itemsOf] at hit
      obtain ⟨e, _, hfe⟩ := mem_of_collectItems_ok hc it hit
      obtain ⟨href, _, hlink, hguid⟩ := reportajesItem_shape hfe
      exact ⟨MAIN_URL ++ href, hlink, hguid⟩

/-- A token outside the 12-entry full-name table is rejected, named. -/
theorem monthFromName_of_not_mem {s : String} (h : s ∉ spanishMonths) :
    monthFromName s = Except.error ("Not a valid month: " ++ s) := by
  simp only [spanishMonths, List.mem_cons, List.not_mem_nil, or_false, not_or] at h
  unfold monthFromName
  split <;> simp_all

/-- A token outside the 12-entry abbreviation table is rejected, named. -/
theorem monthFromAbbrev_of_not_mem {s : String} (h : s ∉ spanishMonthAbbrevs) :
    monthFromAbbrev s = Except.error ("Not a valid month: " ++ s) := by
  simp only [spanishMonthAbbrevs, List.mem_cons, List.not_mem_nil, or_false, not_or] at h
  unfold monthFromAbbrev
  split <;> simp_all

set_option maxRecDepth 200000 in
/-- Claim C5: Dialect A (`isabel::parse_date`) maps
`"jueves, 3 de enero de 2024"` to the canonical timestamp of 2024-01-03 at
noon in the Madrid reference timezone (winter offset +0100); in general the
day is read from whitespace token 1, the month name from token 3 through the
12-entry table, and the year from token 5, and nothing else decides the
date. -/
theorem claim_C5 :
    (parse_date ("jueves, 3 de enero de 2024") =
        Except.ok ("Wed, 03 Jan 2024 12:00:00 +0100") ∧
      (fromYmdStep 2024 1 3 >>= fun dt => localizeNoonRfc2822 dt) =
        Except.ok ("Wed, 03 Jan 2024 12:00:00 +0100")) ∧
    (∀ (s dTok mTok yTok : String) (d mo : Nat) (y : Int),
      (split_whitespace s)[1]? = Option.some dTok → parseU32 dTok = Except.ok d →
      (split_whitespace s)[3]? = Option.some mTok → monthFromName mTok = Except.ok mo →
      (split_whitespace s)[5]? = Option.some yTok → parseI32 yTok = Except.ok y →
      parse_date s = (fromYmdStep y mo d >>= fun dt => localizeNoonRfc2822 dt)) := by
  constructor
  · exact ⟨rfl, rfl⟩
  · intro s dTok mTok yTok d mo y h1 hd h3 hm h5 hy
    simp [parse_date, h1, hd, h3, hm, h5, hy, okOr_some, exbind_ok]

set_option maxRecDepth 200000 in
/-- Claim C6: Dialect B2 (`verde::reportajes_date`) maps `"15 Ago. 2023"` to
the canonical timestamp of 2023-08-15 at noon in the Madrid reference
timezone (summer offset +0200); in general the day is read from token 0, the
period-suffixed abbreviation from token 1 through the 12-entry table, and
the year from token 2. -/
theorem claim_C6 :
    (reportajes_date ("15 Ago. 2023") =
        Except.ok ("Tue, 15 Aug 2023 12:00:00 +0200") ∧
      (fromYmdStep 2023 8 15 >>= fun dt => localizeNoonRfc2822 dt) =
        Except.ok ("Tue, 15 Aug 2023 12:00:00 +0200")) ∧
    (∀ (s dTok mTok yTok : String) (d mo : Nat) (y : Int),
      (split_whitespace s)[0]? = Option.some dTok → parseU32 dTok = Except.ok d →
      (split_whitespace s)[1]? = Option.some mTok → monthFromAbbrev mTok = Except.ok mo →
      (split_whitespace s)[2]? = Option.some yTok → parseI32 yTok = Except.ok y →
      reportajes_date s = (fromYmdStep y mo d >>= fun dt => localizeNoonRfc2822 dt)) := by
  constructor
  · exact ⟨rfl, rfl⟩
  · intro s dTok mTok yTok d mo y h0 hd h1 hm h2 hy
    simp [reportajes_date, h0, hd, h1, hm, h2, hy, okOr_some, exbind_ok]

/-- Claim C7 (amended): when the day and year tokens parse as numbers and the
month token exists but is outside the dialect's 12-entry table, the parser
fails with a `DateParseError` whose message names the invalid token; and
every input either returns a value or an error, except that an input whose
successfully formed date carries a year outside `0..=9999` makes chrono's
`to_rfc2822` panic — the parsers never crash otherwise.  (As originally
stated the claim is false twice over: an unparsable day or year token wins
and its error does not name the month token, and a year such as 99999
panics instead of erroring — see the counterexample.) -/
theorem claim_C7 :
    (∀ (s dTok yTok mTok : String) (d : Nat) (y : Int),
      (split_whitespace s)[1]? = Option.some dTok → parseU32 dTok = Except.ok d →
      (split_whitespace s)[5]? = Option.some yTok → parseI32 yTok = Except.ok y →
      (split_whitespace s)[3]? = Option.some mTok → mTok ∉ spanishMonths →
      parse_date s = Except.error ("Not a valid month: " ++ mTok)) ∧
    (∀ (s dTok yTok mTok : String) (d : Nat) (y : Int),
      (split_whitespace s)[0]? = Option.some dTok → parseU32 dTok = Except.ok d →
      (split_whitespace s)[2]? = Option.some yTok → parseI32 yTok = Except.ok y →
      (split_whitespace s)[1]? = Option.some mTok → mTok ∉ spanishMonthAbbrevs →
      reportajes_date s = Except.error ("Not a valid month: " ++ mTok)) ∧
    (∀ s : String, (∃ r, parse_date_outcome s = Option.some r) ∨
      ∃ d, parse_date_ymd s = Except.ok d ∧ (d.year < 0 ∨ 9999 < d.year)) ∧
    (∀ s : String, (∃ r, reportajes_date_outcome s = Option.some r) ∨
      ∃ d, reportajes_date_ymd s = Except.ok d ∧ (d.year < 0 ∨ 9999 < d.year)) := by
  refine ⟨?_, ?_, ?_, ?_⟩
  · intro s dTok yTok mTok d y h1 hd h5 hy h3 hnot
    have hm := monthFromName_of_not_mem hnot
    simp [parse_date, h1, hd, h5, hy, h3, hm, okOr_some, exbind_ok, exbind_err]
  · intro s dTok yTok mTok d y h0 hd h2 hy h1 hnot
    have hm := monthFromAbbrev_of_not_mem hnot
    simp [reportajes_date, h0, hd, h2, hy, h1, hm, okOr_some, exbind_ok, exbind_err]
  · intro s
    cases hy : parse_date_ymd s with
    | error m => exact Or.inl ⟨Except.error m, by simp [parse_date_outcome, hy]⟩
    | ok d =>
      by_cases hr : 0 ≤ d.year ∧ d.year ≤ 9999
      · exact Or.inl ⟨localizeNoonRfc2822 d, by simp [parse_date_outcome, hy, if_pos hr]⟩
      · exact Or.inr ⟨d, rfl, by omega⟩
  · intro s
    cases hy : reportajes_date_ymd s with
    | error m => exact Or.inl ⟨Except.error m, by simp [reportajes_date_outcome, hy]⟩
    | ok d =>
      by_cases hr : 0 ≤ d.year ∧ d.year ≤ 9999
      · exact Or.inl ⟨localizeNoonRfc2822 d,
          by simp [reportajes_date_outcome, hy, if_pos hr]⟩
      · exact Or.inr ⟨d, rfl, by omega⟩

set_option maxRecDepth 200000 in
/-- Claim C7 counterexample: on `"lunes, x de Xyz de 2024"` the month token
(index 3) is the out-of-table `"Xyz"`, yet the parser's error is the day
parse failure, whose message does not mention the invalid month token
anywhere — so the claim as stated (every input with an out-of-table month
token yields an error naming that token) is false.  The final conjunct also
refutes the claim's never-crashes clause: on `"lunes, 3 de enero de 99999"`
the execution panics in `to_rfc2822` (year outside `0..=9999`) instead of
returning. -/
theorem claim_C7_counterexample :
    (split_whitespace ("lunes, x de Xyz de 2024"))[3]? = Option.some ("Xyz") ∧
    ("Xyz") ∉ spanishMonths ∧
    parse_date ("lunes, x de Xyz de 2024") =
      Except.error ("invalid digit found in string") ∧
    mentionsToken ("invalid digit found in string") ("Xyz") = false ∧
    parse_date_outcome ("lunes, 3 de enero de 99999") = Option.none := by
  exact ⟨rfl, by decide, rfl, rfl, rfl⟩

/-- Claim C8 (amended): every extracted entry's feed-item link is the entry's
title-anchor href with the source's fixed base URL prefix prepended.  For the
two verde sources that prefix is the site origin (`MAIN_URL`); for the isabel
source it is the blog directory URL (`BLOG_URL_BLOG`), not the bare origin —
see the counterexample for why "base origin" is wrong there. -/
theorem claim_C8 :
    (∀ (e : Node) (it : Item), isabelItem e = Except.ok it →
      ∃ href, (elementSelect e SELECTOR_TITLE).head?.bind
          (fun a => getAttr a ("href")) = Option.some href ∧
        it.link = Option.some (BLOG_URL_BLOG ++ href)) ∧
    (∀ (e : Node) (it : Item), blogItem e = Except.ok it →
      ∃ href, ((elementSelect e BLOG_SELECTOR_HEADER).head?.bind
          (fun hd => (elementSelect hd BLOG_SELECTOR_EVEN_HEADER).head?)).bind
          (fun a => getAttr a ("href")) = Option.some href ∧
        it.link = Option.some (MAIN_URL ++ href)) ∧
    (∀ (e : Node) (it : Item), reportajesItem e = Except.ok it →
      ∃ href, (elementSelect e REPORTAJES_SELECTOR_HEADER).head?.bind
          (fun a => getAttr a ("href")) = Option.some href ∧
        it.link = Option.some (MAIN_URL ++ href)) := by
  refine ⟨?_, ?_, ?_⟩
  · intro e it h
    obtain ⟨href, h1, h2, _⟩ := isabelItem_shape h
    exact ⟨href, h1, h2⟩
  · intro e it h
    obtain ⟨href, h1, h2, _⟩ := blogItem_shape h
    exact ⟨href, h1, h2⟩
  · intro e it h
    obtain ⟨href, h1, h2, _⟩ := reportajesItem_shape h
    exact ⟨href, h1, h2⟩

set_option maxRecDepth 200000 in
/-- Claim C8 counterexample: for the isabel source the href is prefixed with
the blog directory URL, not the source's base origin.  On a concrete
document whose single entry carries the root-relative href `/post.html`, the
produced link is `BLOG_URL_BLOG ++ "/post.html"`, which differs from the
origin-resolved `isabelBaseOrigin ++ "/post.html"` — so the claim as stated
(origin prefix prepended) is false for this source. -/
theorem claim_C8_counterexample :
    ((itemsOf (rss (Except.ok rootHrefIsabelDoc))).map Item.link =
      [Option.some ("https://marmenormarmayor.es/El-blog-de-Isabel//post.html")]) ∧
    ((elementSelect rootHrefIsabelDoc SELECTOR_TITLE).head?.bind
      (fun a => getAttr a ("href")) = Option.some ("/post.html")) ∧
    ("https://marmenormarmayor.es/El-blog-de-Isabel//post.html" ≠
      isabelBaseOrigin ++ "/post.html") := by
  refine ⟨rfl, rfl, ?_⟩
  decide

/-- Claim C9 (amended): combining any valid calendar date with the fixed
noon time and localizing it to the Madrid reference timezone always yields
exactly one instant (noon is never skipped or repeated there), so the
internal `Invalid timezone` branch of both date parsers is unreachable; and
every successfully parsed date whose year lies in `0..=9999` serializes to
an RFC 2822 timestamp.  (As originally stated — every successfully parsed
date serializes — the claim is false of the code: for a year outside
`0..=9999` chrono's `to_rfc2822` panics instead of returning; see the
counterexample.) -/
theorem claim_C9 :
    (∀ (y : Int) (m d : Nat) (dt : YMD), from_ymd_opt y m d = Option.some dt →
      ∃ o, resolveLocalMadrid (noonTimestamp dt) = LocalResult.single o) ∧
    (∀ s : String, parse_date s ≠ Except.error ("Invalid timezone")) ∧
    (∀ s : String, reportajes_date s ≠ Except.error ("Invalid timezone")) ∧
    (∀ (s : String) (d : YMD), parse_date_ymd s = Except.ok d →
      0 ≤ d.year → d.year ≤ 9999 →
      ∃ o, parse_date_outcome s =
        Option.some (Except.ok (rfc2822String d 12 0 0 o))) ∧
    (∀ (s : String) (d : YMD), reportajes_date_ymd s = Except.ok d →
      0 ≤ d.year → d.year ≤ 9999 →
      ∃ o, reportajes_date_outcome s =
        Option.some (Except.ok (rfc2822String d 12 0 0 o))) := by
  refine ⟨?_, parse_date_ne_tzErr, reportajes_date_ne_tzErr, ?_, ?_⟩
  · intro y m d dt _
    exact resolveLocalMadrid_noon _ (noonTimestamp_mod dt)
  · intro s d hy h0 h9
    obtain ⟨o, ho⟩ := localizeNoon_ok d
    exact ⟨o, by simp [parse_date_outcome, hy, if_pos (And.intro h0 h9), ho]⟩
  · intro s d hy h0 h9
    obtain ⟨o, ho⟩ := localizeNoon_ok d
    exact ⟨o, by simp [reportajes_date_outcome, hy, if_pos (And.intro h0 h9), ho]⟩

set_option maxRecDepth 200000 in
/-- Claim C9 counterexample: `"lunes, 3 de enero de 99999"` parses to the
valid calendar date 99999-01-03, whose Madrid noon resolves to exactly one
instant (offset +0100), yet the execution panics inside `to_rfc2822`
instead of serializing — the panic-aware outcome is `none` — because the
year exceeds 9999.  So "every successfully parsed date serializes to a
timestamp" is false of the code. -/
theorem claim_C9_counterexample :
    parse_date_ymd ("lunes, 3 de enero de 99999") = Except.ok ⟨99999, 1, 3⟩ ∧
    resolveLocalMadrid (noonTimestamp ⟨99999, 1, 3⟩) = LocalResult.single 3600 ∧
    parse_date_outcome ("lunes, 3 de enero de 99999") = Option.none := by
  exact ⟨rfl, rfl, rfl⟩

/-- Claim C10: Dialect A reads only whitespace tokens 1, 3 and 5 — two
inputs that agree on those three token positions (weekday, the two `de`
separators and everything past token 5 may differ arbitrarily) parse to
identical results. -/
theorem claim_C10 (s1 s2 : String)
    (h1 : (split_whitespace s1)[1]? = (split_whitespace s2)[1]?)
    (h3 : (split_whitespace s1)[3]? = (split_whitespace s2)[3]?)
    (h5 : (split_whitespace s1)[5]? = (split_whitespace s2)[5]?) :
    parse_date s1 = parse_date s2 := by
  simp only [parse_date]
  rw [h1, h3, h5]

/-! ### Witnesses: each claim theorem applied at a concrete input -/

set_option maxRecDepth 200000 in
/-- Witness for C1: a concrete blog document whose single entry has no
header node produces the fixed no-content outcome. -/
theorem claim_C1_witness :
    blog_rss (Except.ok brokenBlogDoc) = noContentResponse :=
  claim_C1.2.1 brokenBlogDoc brokenBlogDoc ("Unable to parse header")
    (List.mem_cons_self _ _) rfl

set_option maxRecDepth 200000 in
/-- Witness for C2: a document with no entry-boundary matches yields the
empty isabel feed with a success status. -/
theorem claim_C2_witness :
    rss (Except.ok (Node.text (""))) = ⟨200, Option.some XML_TYPE,
      Body.feed ⟨"El blog de Isabel", BLOG_URL_BLOG,
        "Últimas entradas del blog de Isabel", []⟩⟩ :=
  claim_C2.1 (Node.text ("")) rfl

set_option maxRecDepth 200000 in
/-- Witness for C3: a concrete well-formed isabel document with one entry
yields exactly one item, in order. -/
theorem claim_C3_witness :
    ∃ items, parse_content (Except.ok goodIsabelDoc) = Except.ok ⟨200, Option.some XML_TYPE,
        Body.feed ⟨"El blog de Isabel", BLOG_URL_BLOG,
          "Últimas entradas del blog de Isabel", items⟩⟩ ∧
      items.length = (documentSelect goodIsabelDoc SELECTOR_SELECTION).length ∧
      ∀ k : Nat, items[k]? =
        ((documentSelect goodIsabelDoc SELECTOR_SELECTION)[k]?).bind
          (fun e => (isabelItem e).toOption) :=
  claim_C3.1 goodIsabelDoc (fun e he => by
    rw [show documentSelect goodIsabelDoc SELECTOR_SELECTION = [goodIsabelDoc] from rfl]
      at he
    rw [List.mem_singleton.mp he]
    exact ⟨goodIsabelItem, rfl⟩)

set_option maxRecDepth 200000 in
/-- Witness for C4: the single item of a concrete reportajes response has a
permalink guid equal to its link. -/
theorem claim_C4_witness :
    ∃ l, goodReportajesItem.link = Option.some l ∧
      goodReportajesItem.guid = Option.some ⟨l, true⟩ :=
  claim_C4.2.2 goodReportajesDoc goodReportajesResponse rfl
    goodReportajesItem (List.mem_cons_self _ _)

set_option maxRecDepth 200000 in
/-- Witness for C5 (the general token-index part): the parse ignores the
filler tokens and reads positions 1, 3, 5. -/
theorem claim_C5_witness :
    parse_date ("a 3 b enero c 2024") =
      (fromYmdStep 2024 1 3 >>= fun dt => localizeNoonRfc2822 dt) :=
  claim_C5.2 ("a 3 b enero c 2024") ("3") ("enero") ("2024") 3 1 2024
    rfl rfl rfl rfl rfl rfl

set_option maxRecDepth 200000 in
/-- Witness for C6 (the general token-index part): positions 0, 1, 2. -/
theorem claim_C6_witness :
    reportajes_date ("15 Abr. 1999") =
      (fromYmdStep 1999 4 15 >>= fun dt => localizeNoonRfc2822 dt) :=
  claim_C6.2 ("15 Abr. 1999") ("15") ("Abr.") ("1999") 15 4 1999
    rfl rfl rfl rfl rfl rfl

set_option maxRecDepth 200000 in
/-- Witness for C7 (amended): with parsable day and year tokens, an
out-of-table month token is named in the error. -/
theorem claim_C7_witness :
    parse_date ("lunes, 3 de Xyz de 2024") =
      Except.error ("Not a valid month: " ++ "Xyz") :=
  claim_C7.1 ("lunes, 3 de Xyz de 2024") ("3") ("2024") ("Xyz") 3 2024
    rfl rfl rfl rfl rfl (by decide)

set_option maxRecDepth 200000 in
/-- Witness for C8 (amended): the link of a concretely extracted isabel item
is the blog base URL with the entry's href appended. -/
theorem claim_C8_witness :
    ∃ href, (elementSelect goodIsabelDoc SELECTOR_TITLE).head?.bind
        (fun a => getAttr a ("href")) = Option.some href ∧
      goodIsabelItem.link = Option.some (BLOG_URL_BLOG ++ href) :=
  claim_C8.1 goodIsabelDoc goodIsabelItem rfl

set_option maxRecDepth 200000 in
/-- Witness for C9: a concrete valid date resolves uniquely, a concrete
parse never reports the internal timezone error, and a concrete in-range
date serializes through the panic-aware model. -/
theorem claim_C9_witness :
    (∃ o, resolveLocalMadrid (noonTimestamp ⟨2024, 1, 3⟩) = LocalResult.single o) ∧
      parse_date ("lunes, 31 de febrero de 2024") ≠ Except.error ("Invalid timezone") ∧
      ∃ o, parse_date_outcome ("jueves, 3 de enero de 2024") =
        Option.some (Except.ok (rfc2822String ⟨2024, 1, 3⟩ 12 0 0 o)) :=
  ⟨claim_C9.1 2024 1 3 ⟨2024, 1, 3⟩ rfl,
   claim_C9.2.1 ("lunes, 31 de febrero de 2024"),
   claim_C9.2.2.2.1 ("jueves, 3 de enero de 2024") ⟨2024, 1, 3⟩ rfl
     (by decide) (by decide)⟩

set_option maxRecDepth 200000 in
/-- Witness for C10: two concrete inputs differing in the ignored positions
(and one with trailing extra tokens) parse identically. -/
theorem claim_C10_witness :
    parse_date ("jueves, 3 de enero de 2024") =
      parse_date ("lunes, 3 X enero Y 2024 EXTRA") :=
  claim_C10 ("jueves, 3 de enero de 2024") ("lunes, 3 X enero Y 2024 EXTRA")
    rfl rfl rfl
